import Mathlib

/-!
Shallow embedding of the `continuous-profiler` package (src/index.ts).

The repository is a single TypeScript class `ContinuousProfiler` that
orchestrates bounded sessions of the browser JS Self-Profiling engine.
We embed its state and operations as pure functions over an explicit
`World` record that also models the relevant environment:

* `profilerAvailable` models the module-scope constant
  `const Profiler = (globalThis as any).Profiler` being defined;
* `now` models `performance.now()` (monotonic clock) and `timeOrigin`
  models `performance.timeOrigin`;
* `pendingTimers` models outstanding `setTimeout` handles
  (`clearTimeout` removes one);
* `runningProfilers` models engine instances created and not yet
  stop-initiated; `listeners` models the `samplebufferfull` listeners
  registered by `addEventListener` (the source never removes them);
* `queuedBufferFull` models `samplebufferfull` events queued as tasks
  but not yet delivered to their listener;
* `pendingStops` models in-flight `profiler.stop()` promises (the
  snapshot of `session.start` taken in `stop()` travels with each);
* `callbackLog` records every invocation of the consumer callback,
  in order, with the `ContinuousProfilerTrace` it received.

Times are rationals (JS numbers used only through `+`, `*`, `/` and
`Math.round` here, so ℚ is an exact model).
-/

/-- Frame of a trace (`ProfilerFrame` in src/index.ts). -/
structure ProfilerFrame where
  name : String
  resourceId : Option Nat := none
  line : Option Nat := none
  column : Option Nat := none
deriving DecidableEq

/-- Stack node of a trace (`ProfilerStack` in src/index.ts). -/
structure ProfilerStack where
  parentId : Option Nat := none
  frameId : Nat
deriving DecidableEq

/-- Sample of a trace (`ProfilerSample` in src/index.ts). -/
structure ProfilerSample where
  timestamp : ℚ
  stackId : Option Nat := none
deriving DecidableEq

/-- Resource identifier (`ProfilerResource` in src/index.ts). -/
abbrev ProfilerResource := String

/-- Raw trace yielded by one engine session (`ProfilerTrace`). -/
structure ProfilerTrace where
  resources : List ProfilerResource
  frames : List ProfilerFrame
  «stacks» : List ProfilerStack
  samples : List ProfilerSample
deriving DecidableEq

/-- Trace delivered to the consumer callback (`ContinuousProfilerTrace`):
the raw trace plus absolute `start` and `end` bounds. The source field
`end` is a Lean keyword, embedded here as `endTime`. -/
structure ContinuousProfilerTrace extends ProfilerTrace where
  start : ℚ
  endTime : ℚ
deriving DecidableEq

/-- Resolved options (`ContinuousProfilerOptions` in src/index.ts). -/
structure ContinuousProfilerOptions where
  sampleInterval : ℚ
  collectInterval : ℚ
  maxBufferSize : ℤ
deriving DecidableEq

/-- The active session triple (`ContinuousProfilerSession`). -/
structure ContinuousProfilerSession where
  profilerId : Nat
  start : ℚ
  timeoutId : Nat
deriving DecidableEq

/-- An in-flight `profiler.stop()` promise together with the `start`
snapshot captured synchronously inside `ContinuousProfiler.stop`. -/
structure PendingStop where
  profilerId : Nat
  startSnapshot : ℚ
deriving DecidableEq

/-- Controller state plus the modelled environment. -/
structure World where
  profilerAvailable : Bool
  timeOrigin : ℚ
  now : ℚ
  options : ContinuousProfilerOptions
  session : Option ContinuousProfilerSession
  nextProfilerId : Nat
  nextTimerId : Nat
  pendingTimers : List Nat
  runningProfilers : List Nat
  listeners : List Nat
  queuedBufferFull : List Nat
  pendingStops : List PendingStop
  callbackLog : List ContinuousProfilerTrace
deriving DecidableEq

/-- JavaScript `x || d` applied to an optional number: `undefined` and
the falsy number `0` both select the default. -/
def jsOr (x : Option ℚ) (d : ℚ) : ℚ :=
  match x with
  | none => d
  | some v => if v = 0 then d else v

namespace ContinuousProfiler

/-- The constructor's option resolution (src/index.ts lines 127-138):
`(options && options.sampleInterval) || 10`,
`(options && options.collectInterval) || 10000`, and
`maxBufferSize = Math.round((collectInterval * 1.5) / sampleInterval)`. -/
def mkOptions (sampleIntervalOpt collectIntervalOpt : Option ℚ) :
    ContinuousProfilerOptions :=
  let sampleInterval := jsOr sampleIntervalOpt 10
  let collectInterval := jsOr collectIntervalOpt 10000
  { sampleInterval := sampleInterval
    collectInterval := collectInterval
    maxBufferSize := round ((collectInterval * (3 / 2)) / sampleInterval) }

/-- Getter `supported`: `Profiler !== undefined`. -/
def supported (w : World) : Bool :=
  w.profilerAvailable

/-- Getter `stopped`: `this.session === undefined`. -/
def stopped (w : World) : Bool :=
  w.session.isNone

/-- Method `start()` (src/index.ts lines 158-183). Throwing
`new Error("Profiler is not supported.")` is embedded as `Except.error`.
On success: capture `performance.now()`, construct a fresh engine
instance, schedule the rotation timer, register the `samplebufferfull`
listener on the new instance, and store the session triple. -/
def start (w : World) : Except String World :=
  if w.profilerAvailable = false then
    Except.error "Profiler is not supported."
  else if w.session.isSome then
    Except.ok w
  else
    Except.ok { w with
      session := some
        { profilerId := w.nextProfilerId
          start := w.now
          timeoutId := w.nextTimerId }
      nextProfilerId := w.nextProfilerId + 1
      nextTimerId := w.nextTimerId + 1
      runningProfilers := w.runningProfilers ++ [w.nextProfilerId]
      pendingTimers := w.pendingTimers ++ [w.nextTimerId]
      listeners := w.listeners ++ [w.nextProfilerId] }

/-- Method `stop()` (src/index.ts lines 189-208). If no session exists
it is a no-op returning a resolved promise. Otherwise it snapshots
`session.start`, initiates the engine's asynchronous stop (recorded as
a `PendingStop`; the engine ceases to run), cancels the rotation timer
(`clearTimeout`) and clears the session slot — all synchronously,
before the promise resolves. -/
def stop (w : World) : World :=
  match w.session with
  | none => w
  | some s =>
    { w with
      pendingStops :=
        w.pendingStops ++ [{ profilerId := s.profilerId, startSnapshot := s.start }]
      runningProfilers := w.runningProfilers.erase s.profilerId
      pendingTimers := w.pendingTimers.erase s.timeoutId
      session := none }

end ContinuousProfiler

/-- Effect of a user-initiated `start()` call: an
`UnsupportedEnvironment` throw performs no state mutation. -/
def startRun (w : World) : World :=
  match ContinuousProfiler.start w with
  | Except.ok w' => w'
  | Except.error _ => w

/-- Body shared by both rotation triggers (timer callback and
`samplebufferfull` listener): `this.stop(); this.start();` — `start` is
called without awaiting `stop`'s promise. Both closures capture `this`
(the controller). An exception from `start` would propagate after
`stop` already ran. -/
def rotationBody (w : World) : World :=
  startRun (ContinuousProfiler.stop w)

/-- The monotonic clock advances by `d`. -/
def tickRun (d : ℚ) (w : World) : World :=
  { w with now := w.now + d }

/-- A pending `setTimeout` with handle `tid` fires: the handle is
consumed and the rotation body runs. -/
def timerFireRun (tid : Nat) (w : World) : World :=
  rotationBody { w with pendingTimers := w.pendingTimers.erase tid }

/-- A running engine's sample buffer fills: the engine queues a
`samplebufferfull` event task for later delivery. -/
def emitBufferFullRun (pid : Nat) (w : World) : World :=
  { w with queuedBufferFull := w.queuedBufferFull ++ [pid] }

/-- The event-loop delivers the oldest queued `samplebufferfull` event:
if a listener is registered for that engine instance (it always is,
and is never removed), the rotation body runs. -/
def deliverBufferFullRun (w : World) : World :=
  match w.queuedBufferFull with
  | [] => w
  | pid :: rest =>
    if pid ∈ w.listeners then rotationBody { w with queuedBufferFull := rest }
    else { w with queuedBufferFull := rest }

/-- The oldest in-flight `profiler.stop()` promise resolves with a raw
trace: the `then` continuation captures `performance.now()` as `end`
and invokes the consumer callback with the trace extended by absolute
`start`/`end` bounds (src/index.ts lines 195-203). -/
def resolveStopRun (trace : ProfilerTrace) (w : World) : World :=
  match w.pendingStops with
  | [] => w
  | p :: rest =>
    { w with
      pendingStops := rest
      callbackLog := w.callbackLog ++
        [{ toProfilerTrace := trace
           start := w.timeOrigin + p.startSnapshot
           endTime := w.timeOrigin + w.now }] }

/-- One observable step of the cooperative single-threaded execution. -/
inductive Step : World → World → Prop where
  | tick (w : World) (d : ℚ) (hd : 0 ≤ d) : Step w (tickRun d w)
  | userStart (w : World) : Step w (startRun w)
  | userStop (w : World) : Step w (ContinuousProfiler.stop w)
  | timerFire (w : World) (tid : Nat) (ht : tid ∈ w.pendingTimers) :
      Step w (timerFireRun tid w)
  | emitBufferFull (w : World) (pid : Nat) (hp : pid ∈ w.runningProfilers) :
      Step w (emitBufferFullRun pid w)
  | deliverBufferFull (w : World) (hq : w.queuedBufferFull ≠ []) :
      Step w (deliverBufferFullRun w)
  | resolveStop (w : World) (trace : ProfilerTrace) (hp : w.pendingStops ≠ []) :
      Step w (resolveStopRun trace w)

/-- State immediately after `new ContinuousProfiler(callback, options)`. -/
def initWorld (available : Bool) (timeOrigin now0 : ℚ)
    (sampleIntervalOpt collectIntervalOpt : Option ℚ) : World :=
  { profilerAvailable := available
    timeOrigin := timeOrigin
    now := now0
    options := ContinuousProfiler.mkOptions sampleIntervalOpt collectIntervalOpt
    session := none
    nextProfilerId := 0
    nextTimerId := 0
    pendingTimers := []
    runningProfilers := []
    listeners := []
    queuedBufferFull := []
    pendingStops := []
    callbackLog := [] }

/-- Reachability under any interleaving of user calls, timer fires,
buffer-full events and promise resolutions. -/
def Reachable (w0 w : World) : Prop :=
  Relation.ReflTransGen Step w0 w

/-- Inductive controller invariant: the session slot, the set of
running engine instances and the set of pending rotation timers stay
in lock-step, and a session can only exist when the engine capability
is available. -/
def ControllerInv (w : World) : Prop :=
  (w.session = none → w.runningProfilers = [] ∧ w.pendingTimers = []) ∧
  (∀ s, w.session = some s →
    w.runningProfilers = [s.profilerId] ∧
    w.pendingTimers = [s.timeoutId] ∧
    w.profilerAvailable = true)

/-! ### Characterization lemmas for the embedded operations -/

lemma start_unsupported (w : World) (ha : w.profilerAvailable = false) :
    ContinuousProfiler.start w = Except.error "Profiler is not supported." := by
  simp [ContinuousProfiler.start, ha]

lemma start_alreadyStarted (w : World) (s : ContinuousProfilerSession)
    (ha : w.profilerAvailable = true) (hs : w.session = some s) :
    ContinuousProfiler.start w = Except.ok w := by
  simp [ContinuousProfiler.start, ha, hs]

lemma start_fresh (w : World)
    (ha : w.profilerAvailable = true) (hs : w.session = none) :
    ContinuousProfiler.start w = Except.ok { w with
      session := some
        { profilerId := w.nextProfilerId
          start := w.now
          timeoutId := w.nextTimerId }
      nextProfilerId := w.nextProfilerId + 1
      nextTimerId := w.nextTimerId + 1
      runningProfilers := w.runningProfilers ++ [w.nextProfilerId]
      pendingTimers := w.pendingTimers ++ [w.nextTimerId]
      listeners := w.listeners ++ [w.nextProfilerId] } := by
  simp [ContinuousProfiler.start, ha, hs]

lemma stop_noSession (w : World) (hs : w.session = none) :
    ContinuousProfiler.stop w = w := by
  simp [ContinuousProfiler.stop, hs]

lemma stop_session (w : World) (s : ContinuousProfilerSession)
    (hs : w.session = some s) :
    ContinuousProfiler.stop w = { w with
      pendingStops :=
        w.pendingStops ++ [{ profilerId := s.profilerId, startSnapshot := s.start }]
      runningProfilers := w.runningProfilers.erase s.profilerId
      pendingTimers := w.pendingTimers.erase s.timeoutId
      session := none } := by
  simp [ContinuousProfiler.stop, hs]

lemma erase_singleton_erase (a b : Nat) : ([a].erase b).erase a = [] := by
  by_cases h : a = b <;> simp [List.erase_cons, h]

/-! ### The inductive invariant is preserved by every step -/

lemma controllerInv_startRun (w : World) (h : ControllerInv w) :
    ControllerInv (startRun w) := by
  obtain ⟨hn, ho⟩ := h
  by_cases ha : w.profilerAvailable = true
  · cases hsess : w.session with
    | none =>
        rw [startRun, start_fresh w ha hsess]
        refine ⟨by simp, ?_⟩
        intro s hs
        simp at hs
        simp [← hs, (hn hsess).1, (hn hsess).2, ha]
    | some s =>
        rw [startRun, start_alreadyStarted w s ha hsess]
        exact ⟨hn, ho⟩
  · rw [startRun, start_unsupported w (by simpa using ha)]
    exact ⟨hn, ho⟩

lemma controllerInv_stop (w : World) (h : ControllerInv w) :
    ControllerInv (ContinuousProfiler.stop w) := by
  obtain ⟨hn, ho⟩ := h
  cases hsess : w.session with
  | none => rw [stop_noSession w hsess]; exact ⟨hn, ho⟩
  | some s =>
      rw [stop_session w s hsess]
      obtain ⟨hr, ht, _⟩ := ho s hsess
      refine ⟨?_, by simp⟩
      intro _
      simp [hr, ht, List.erase_cons]

lemma controllerInv_rotationBody (w : World) (h : ControllerInv w) :
    ControllerInv (rotationBody w) :=
  controllerInv_startRun _ (controllerInv_stop _ h)

lemma controllerInv_timerFireRun (w : World) (tid : Nat) (h : ControllerInv w) :
    ControllerInv (timerFireRun tid w) := by
  obtain ⟨hn, ho⟩ := h
  rw [timerFireRun, rotationBody]
  apply controllerInv_startRun
  cases hsess : w.session with
  | none =>
      rw [stop_noSession _ rfl]
      refine ⟨fun _ => ⟨(hn hsess).1, by simp [(hn hsess).2]⟩, fun s hs => by simp at hs⟩
  | some s =>
      rw [stop_session _ s rfl]
      obtain ⟨hr, ht, hav⟩ := ho s hsess
      refine ⟨fun _ => ⟨?_, ?_⟩, fun s' hs' => by simp at hs'⟩
      · simp [hr, List.erase_cons]
      · simp [ht, erase_singleton_erase]

lemma controllerInv_tickRun (w : World) (d : ℚ) (h : ControllerInv w) :
    ControllerInv (tickRun d w) := by
  obtain ⟨hn, ho⟩ := h
  exact ⟨fun hs => hn hs, fun s hs => ho s hs⟩

lemma controllerInv_emitBufferFullRun (w : World) (pid : Nat) (h : ControllerInv w) :
    ControllerInv (emitBufferFullRun pid w) := by
  obtain ⟨hn, ho⟩ := h
  exact ⟨fun hs => hn hs, fun s hs => ho s hs⟩

lemma controllerInv_deliverBufferFullRun (w : World) (h : ControllerInv w) :
    ControllerInv (deliverBufferFullRun w) := by
  obtain ⟨hn, ho⟩ := h
  rw [deliverBufferFullRun]
  cases hq : w.queuedBufferFull with
  | nil => exact ⟨hn, ho⟩
  | cons pid rest =>
      by_cases hl : pid ∈ w.listeners
      · simp only [hl, if_true]
        exact controllerInv_rotationBody _ ⟨fun hs => hn hs, fun s hs => ho s hs⟩
      · simp only [hl, if_false]
        exact ⟨fun hs => hn hs, fun s hs => ho s hs⟩

lemma controllerInv_resolveStopRun (w : World) (trace : ProfilerTrace)
    (h : ControllerInv w) : ControllerInv (resolveStopRun trace w) := by
  obtain ⟨hn, ho⟩ := h
  rw [resolveStopRun]
  cases hp : w.pendingStops with
  | nil => exact ⟨hn, ho⟩
  | cons p rest => exact ⟨fun hs => hn hs, fun s hs => ho s hs⟩

lemma controllerInv_step {w w' : World} (hstep : Step w w') (h : ControllerInv w) :
    ControllerInv w' := by
  cases hstep with
  | tick d hd => exact controllerInv_tickRun _ d h
  | userStart => exact controllerInv_startRun _ h
  | userStop => exact controllerInv_stop _ h
  | timerFire tid ht => exact controllerInv_timerFireRun _ tid h
  | emitBufferFull pid hp => exact controllerInv_emitBufferFullRun _ pid h
  | deliverBufferFull hq => exact controllerInv_deliverBufferFullRun _ h
  | resolveStop trace hp => exact controllerInv_resolveStopRun _ trace h

lemma controllerInv_init (available : Bool) (timeOrigin now0 : ℚ)
    (si ci : Option ℚ) : ControllerInv (initWorld available timeOrigin now0 si ci) := by
  exact ⟨fun _ => ⟨rfl, rfl⟩, fun s hs => by simp [initWorld] at hs⟩

lemma controllerInv_reachable {w0 w : World} (h0 : ControllerInv w0)
    (h : Reachable w0 w) : ControllerInv w := by
  induction h with
  | refl => exact h0
  | tail _ hstep ih => exact controllerInv_step hstep ih

/-! ### Claim theorems -/

/-- C2: for every `sampleInterval` and `collectInterval` fixed at
construction, the derived `maxBufferSize` equals
`round((collectInterval * 1.5) / sampleInterval)`; in particular for
sampleInterval 10 and collectInterval 10000 it equals 1500. -/
theorem maxBufferSize_derivation (si ci : Option ℚ) :
    (ContinuousProfiler.mkOptions si ci).maxBufferSize =
      round (((ContinuousProfiler.mkOptions si ci).collectInterval * (3 / 2)) /
        (ContinuousProfiler.mkOptions si ci).sampleInterval) ∧
    (ContinuousProfiler.mkOptions (some 10) (some 10000)).maxBufferSize = 1500 := by
  refine ⟨rfl, ?_⟩
  norm_num [ContinuousProfiler.mkOptions, jsOr, round_eq]

/-- C10: a falsy supplied value (0 or absent) for `sampleInterval` or
`collectInterval` is replaced by the default (10 resp. 10000), because
the constructor applies defaults with the logical-or operator; truthy
supplied values are used as given. -/
theorem constructor_falsy_defaults (si ci : Option ℚ) (q r : ℚ)
    (hq : q ≠ 0) (hr : r ≠ 0) :
    (ContinuousProfiler.mkOptions (some 0) ci).sampleInterval = 10 ∧
    (ContinuousProfiler.mkOptions none ci).sampleInterval = 10 ∧
    (ContinuousProfiler.mkOptions si (some 0)).collectInterval = 10000 ∧
    (ContinuousProfiler.mkOptions si none).collectInterval = 10000 ∧
    (ContinuousProfiler.mkOptions (some q) ci).sampleInterval = q ∧
    (ContinuousProfiler.mkOptions si (some r)).collectInterval = r := by
  refine ⟨?_, rfl, ?_, rfl, ?_, ?_⟩ <;>
    simp [ContinuousProfiler.mkOptions, jsOr, hq, hr]

/-- Witness for C10 at concrete inputs 0, absent, 7 and 9. -/
theorem constructor_falsy_defaults_witness :
    (ContinuousProfiler.mkOptions (some 0) none).sampleInterval = 10 ∧
    (ContinuousProfiler.mkOptions none none).sampleInterval = 10 ∧
    (ContinuousProfiler.mkOptions none (some 0)).collectInterval = 10000 ∧
    (ContinuousProfiler.mkOptions none none).collectInterval = 10000 ∧
    (ContinuousProfiler.mkOptions (some 7) none).sampleInterval = 7 ∧
    (ContinuousProfiler.mkOptions none (some 9)).collectInterval = 9 :=
  constructor_falsy_defaults none none 7 9 (by norm_num) (by norm_num)

/-- C8: `start()` is idempotent — with an active session, a second
`start()` call returns with the whole controller state unchanged (same
session, same start timestamp, same engine instance, same pending
rotation timer). -/
theorem start_idempotent (w : World) (s : ContinuousProfilerSession)
    (ha : w.profilerAvailable = true) (hs : w.session = some s) :
    ContinuousProfiler.start w = Except.ok w ∧
    (startRun w).session = some s := by
  refine ⟨start_alreadyStarted w s ha hs, ?_⟩
  rw [startRun, start_alreadyStarted w s ha hs, hs]

/-- Witness for C8: a second `start()` right after the first. -/
theorem start_idempotent_witness :
    ContinuousProfiler.start (startRun (initWorld true 0 0 none none)) =
      Except.ok (startRun (initWorld true 0 0 none none)) ∧
    (startRun (startRun (initWorld true 0 0 none none))).session =
      some { profilerId := 0, start := 0, timeoutId := 0 } :=
  start_idempotent (startRun (initWorld true 0 0 none none))
    { profilerId := 0, start := 0, timeoutId := 0 } rfl rfl

/-- C9: `stop()` with no session returns an immediately-resolved
completion with no state change and no callback; after one successful
`start()`, two consecutive `stop()` calls put exactly one trace
collection in flight (the second call changes nothing), and its
resolution delivers exactly one consumer callback invocation. -/
theorem stop_idempotent_single_callback (w : World)
    (hs : w.session = none) (hp : w.pendingStops = []) :
    ContinuousProfiler.stop w = w ∧
    (∀ w', ContinuousProfiler.start w = Except.ok w' →
      ContinuousProfiler.stop (ContinuousProfiler.stop w') =
        ContinuousProfiler.stop w' ∧
      (ContinuousProfiler.stop w').callbackLog = w.callbackLog ∧
      (ContinuousProfiler.stop w').pendingStops.length = 1 ∧
      ∀ t t2 : ProfilerTrace,
        (resolveStopRun t (ContinuousProfiler.stop w')).callbackLog.length =
          w.callbackLog.length + 1 ∧
        (resolveStopRun t2
            (resolveStopRun t (ContinuousProfiler.stop w'))).callbackLog.length =
          w.callbackLog.length + 1) := by
  refine ⟨stop_noSession w hs, ?_⟩
  intro w' h'
  by_cases ha : w.profilerAvailable = true
  · rw [start_fresh w ha hs] at h'
    simp only [Except.ok.injEq] at h'
    subst h'
    refine ⟨?_, ?_, ?_, ?_⟩
    · apply stop_noSession
      rw [stop_session _ _ rfl]
    · rw [stop_session _ _ rfl]
    · rw [stop_session _ _ rfl]
      simp [hp]
    · intro t t2
      rw [stop_session _ _ rfl]
      simp [resolveStopRun, hp]
  · rw [start_unsupported w (by simpa using ha)] at h'
    exact absurd h' (by simp)

/-- Witness for C9 at the freshly constructed controller. -/
theorem stop_idempotent_single_callback_witness :
    ContinuousProfiler.stop (initWorld true 0 0 none none) =
      initWorld true 0 0 none none ∧
    (∀ w', ContinuousProfiler.start (initWorld true 0 0 none none) = Except.ok w' →
      ContinuousProfiler.stop (ContinuousProfiler.stop w') =
        ContinuousProfiler.stop w' ∧
      (ContinuousProfiler.stop w').callbackLog =
        (initWorld true 0 0 none none).callbackLog ∧
      (ContinuousProfiler.stop w').pendingStops.length = 1 ∧
      ∀ t t2 : ProfilerTrace,
        (resolveStopRun t (ContinuousProfiler.stop w')).callbackLog.length =
          (initWorld true 0 0 none none).callbackLog.length + 1 ∧
        (resolveStopRun t2
            (resolveStopRun t (ContinuousProfiler.stop w'))).callbackLog.length =
          (initWorld true 0 0 none none).callbackLog.length + 1) :=
  stop_idempotent_single_callback (initWorld true 0 0 none none) rfl rfl

/-- C3: timestamp normalization — for a session with time origin T0,
started at monotonic time S (= the clock at the `start()` call), whose
engine stop resolves its raw trace at monotonic time E (= S + d1 + d2
after the two clock advances), the delivered `ContinuousProfilerTrace`
has `start` = T0 + S and `end` = T0 + E exactly. -/
theorem trace_timestamp_normalization (w : World) (trace : ProfilerTrace)
    (d1 d2 : ℚ) (hd1 : 0 ≤ d1) (hd2 : 0 ≤ d2)
    (ha : w.profilerAvailable = true) (hs : w.session = none)
    (hp : w.pendingStops = []) :
    (resolveStopRun trace
        (tickRun d2 (ContinuousProfiler.stop (tickRun d1 (startRun w))))).callbackLog =
      w.callbackLog ++
        [{ toProfilerTrace := trace
           start := w.timeOrigin + w.now
           endTime := w.timeOrigin + (w.now + d1 + d2) }] := by
  rw [startRun, start_fresh w ha hs]
  simp [tickRun, ContinuousProfiler.stop, resolveStopRun, hp]

/-- Witness for C3: T0 = 100, S = 5, E = 5 + 20 + 3 = 28; the delivered
bounds are 105 and 128. -/
theorem trace_timestamp_normalization_witness :
    (resolveStopRun { resources := [], frames := [], «stacks» := [], samples := [] }
        (tickRun 3 (ContinuousProfiler.stop
          (tickRun 20 (startRun (initWorld true 100 5 none none)))))).callbackLog =
      (initWorld true 100 5 none none).callbackLog ++
        [{ toProfilerTrace :=
             { resources := [], frames := [], «stacks» := [], samples := [] }
           start := 100 + 5
           endTime := 100 + (5 + 20 + 3) }] :=
  trace_timestamp_normalization (initWorld true 100 5 none none)
    { resources := [], frames := [], «stacks» := [], samples := [] }
    20 3 (by norm_num) (by norm_num) rfl rfl rfl

/-- C6: for every `stop()` on a reachable state with an active session,
the pending rotation timer is cancelled and the session slot cleared
synchronously — before the in-flight trace collection resolves (the
callback log is still untouched and the collection is merely pending) —
so `stopped` is true immediately after and a subsequent `start()`
succeeds without waiting for the in-flight stop. -/
theorem stop_synchronous_clear (available : Bool) (timeOrigin now0 : ℚ)
    (si ci : Option ℚ) (w : World) (s : ContinuousProfilerSession)
    (hreach : Reachable (initWorld available timeOrigin now0 si ci) w)
    (hs : w.session = some s) :
    (ContinuousProfiler.stop w).session = none ∧
    ContinuousProfiler.stopped (ContinuousProfiler.stop w) = true ∧
    s.timeoutId ∉ (ContinuousProfiler.stop w).pendingTimers ∧
    (ContinuousProfiler.stop w).callbackLog = w.callbackLog ∧
    (ContinuousProfiler.stop w).pendingStops =
      w.pendingStops ++ [{ profilerId := s.profilerId, startSnapshot := s.start }] ∧
    (∃ w', ContinuousProfiler.start (ContinuousProfiler.stop w) = Except.ok w' ∧
      w'.session = some
        { profilerId := w.nextProfilerId
          start := w.now
          timeoutId := w.nextTimerId }) := by
  have hinv := controllerInv_reachable
    (controllerInv_init available timeOrigin now0 si ci) hreach
  obtain ⟨hn, ho⟩ := hinv
  obtain ⟨hr, ht, hav⟩ := ho s hs
  rw [stop_session w s hs]
  refine ⟨rfl, rfl, ?_, rfl, rfl, ?_⟩
  · simp [ht, List.erase_cons]
  · rw [start_fresh _ (by simpa using hav) rfl]
    exact ⟨_, rfl, rfl⟩

/-- Witness for C6: stopping right after the first `start()`. -/
theorem stop_synchronous_clear_witness :
    (ContinuousProfiler.stop (startRun (initWorld true 0 0 none none))).session = none ∧
    ContinuousProfiler.stopped
      (ContinuousProfiler.stop (startRun (initWorld true 0 0 none none))) = true ∧
    (0 : Nat) ∉
      (ContinuousProfiler.stop (startRun (initWorld true 0 0 none none))).pendingTimers ∧
    (ContinuousProfiler.stop (startRun (initWorld true 0 0 none none))).callbackLog =
      (startRun (initWorld true 0 0 none none)).callbackLog ∧
    (ContinuousProfiler.stop (startRun (initWorld true 0 0 none none))).pendingStops =
      (startRun (initWorld true 0 0 none none)).pendingStops ++
        [{ profilerId := 0, startSnapshot := 0 }] ∧
    (∃ w', ContinuousProfiler.start
        (ContinuousProfiler.stop (startRun (initWorld true 0 0 none none))) =
          Except.ok w' ∧
      w'.session = some { profilerId := 1, start := 0, timeoutId := 1 }) :=
  stop_synchronous_clear true 0 0 none none
    (startRun (initWorld true 0 0 none none))
    { profilerId := 0, start := 0, timeoutId := 0 }
    (Relation.ReflTransGen.tail Relation.ReflTransGen.refl
      (Step.userStart (initWorld true 0 0 none none)))
    rfl

/-- C1: on every reachable state — under any interleaving of `start()`,
`stop()`, timer fires, buffer-full events and trace resolutions — the
controller reports at most one live underlying-engine instance, and the
read-only `stopped` property is true exactly when the session slot is
absent. -/
theorem at_most_one_session (available : Bool) (timeOrigin now0 : ℚ)
    (si ci : Option ℚ) (w : World)
    (hreach : Reachable (initWorld available timeOrigin now0 si ci) w) :
    w.runningProfilers.length ≤ 1 ∧
    (ContinuousProfiler.stopped w = true ↔ w.session = none) := by
  have hinv := controllerInv_reachable
    (controllerInv_init available timeOrigin now0 si ci) hreach
  obtain ⟨hn, ho⟩ := hinv
  constructor
  · cases hsess : w.session with
    | none => simp [(hn hsess).1]
    | some s => simp [(ho s hsess).1]
  · simp [ContinuousProfiler.stopped, Option.isNone_iff_eq_none]

/-- Witness for C1 after one rotation-heavy run: start, buffer-full
emission, timer fire (rotation), stale delivery, user stop. -/
theorem at_most_one_session_witness :
    (ContinuousProfiler.stop (startRun (initWorld true 0 0 none none))).runningProfilers.length ≤ 1 ∧
    (ContinuousProfiler.stopped (ContinuousProfiler.stop (startRun (initWorld true 0 0 none none))) = true ↔
      (ContinuousProfiler.stop (startRun (initWorld true 0 0 none none))).session = none) :=
  at_most_one_session true 0 0 none none
    (ContinuousProfiler.stop (startRun (initWorld true 0 0 none none)))
    (Relation.ReflTransGen.tail
      (Relation.ReflTransGen.tail Relation.ReflTransGen.refl
        (Step.userStart (initWorld true 0 0 none none)))
      (Step.userStop (startRun (initWorld true 0 0 none none))))

/-- C7: `start()` throws `Error("Profiler is not supported.")` exactly
when the engine capability is absent; then `supported` reports false
and `stop()` is a safe no-op on every reachable state; when the
capability is present, `start()` never throws. -/
theorem unsupported_environment (available : Bool) (timeOrigin now0 : ℚ)
    (si ci : Option ℚ) (w : World)
    (hreach : Reachable (initWorld available timeOrigin now0 si ci) w) :
    ((∃ e, ContinuousProfiler.start w = Except.error e) ↔
      w.profilerAvailable = false) ∧
    ContinuousProfiler.supported w = w.profilerAvailable ∧
    (w.profilerAvailable = false →
      ContinuousProfiler.supported w = false ∧
      ContinuousProfiler.start w = Except.error "Profiler is not supported." ∧
      ContinuousProfiler.stop w = w ∧
      (ContinuousProfiler.stop w).callbackLog = w.callbackLog) := by
  have hinv := controllerInv_reachable
    (controllerInv_init available timeOrigin now0 si ci) hreach
  obtain ⟨hn, ho⟩ := hinv
  have hnoSession : w.profilerAvailable = false → w.session = none := by
    intro hav
    cases hsess : w.session with
    | none => rfl
    | some s => exact absurd (ho s hsess).2.2 (by simp [hav])
  refine ⟨⟨?_, ?_⟩, rfl, ?_⟩
  · rintro ⟨e, he⟩
    by_contra hav
    have hav' : w.profilerAvailable = true := by
      cases h : w.profilerAvailable
      · exact absurd h hav
      · rfl
    cases hsess : w.session with
    | none => rw [start_fresh w hav' hsess] at he; exact absurd he (by simp)
    | some s => rw [start_alreadyStarted w s hav' hsess] at he; exact absurd he (by simp)
  · intro hav
    exact ⟨_, start_unsupported w hav⟩
  · intro hav
    refine ⟨by simp [ContinuousProfiler.supported, hav], start_unsupported w hav, ?_, ?_⟩
    · exact stop_noSession w (hnoSession hav)
    · rw [stop_noSession w (hnoSession hav)]

/-- Witness for C7 in an environment without the engine capability. -/
theorem unsupported_environment_witness :
    ((∃ e, ContinuousProfiler.start (initWorld false 0 0 none none) = Except.error e) ↔
      (initWorld false 0 0 none none).profilerAvailable = false) ∧
    ContinuousProfiler.supported (initWorld false 0 0 none none) =
      (initWorld false 0 0 none none).profilerAvailable ∧
    ((initWorld false 0 0 none none).profilerAvailable = false →
      ContinuousProfiler.supported (initWorld false 0 0 none none) = false ∧
      ContinuousProfiler.start (initWorld false 0 0 none none) =
        Except.error "Profiler is not supported." ∧
      ContinuousProfiler.stop (initWorld false 0 0 none none) =
        initWorld false 0 0 none none ∧
      (ContinuousProfiler.stop (initWorld false 0 0 none none)).callbackLog =
        (initWorld false 0 0 none none).callbackLog) :=
  unsupported_environment false 0 0 none none (initWorld false 0 0 none none)
    Relation.ReflTransGen.refl

/-- C5: both rotation triggers — the timer callback and the
`samplebufferfull` listener — execute the identical body
`stop(); start()`: the old engine's stop is initiated (its pending
collection recorded, session slot vacated) strictly before the new
engine instance is started, and `start()` runs without awaiting the
stop's promise (the consumer callback has not fired when the new
session exists). -/
theorem rotation_stop_then_start (w : World) (tid pid : Nat) (rest : List Nat)
    (s : ContinuousProfilerSession)
    (ha : w.profilerAvailable = true) (hs : w.session = some s)
    (hq : w.queuedBufferFull = pid :: rest) (hl : pid ∈ w.listeners) :
    timerFireRun tid w =
      rotationBody { w with pendingTimers := w.pendingTimers.erase tid } ∧
    deliverBufferFullRun w =
      rotationBody { w with queuedBufferFull := rest } ∧
    rotationBody w = startRun (ContinuousProfiler.stop w) ∧
    (ContinuousProfiler.stop w).pendingStops =
      w.pendingStops ++ [{ profilerId := s.profilerId, startSnapshot := s.start }] ∧
    (ContinuousProfiler.stop w).session = none ∧
    (rotationBody w).session = some
      { profilerId := w.nextProfilerId, start := w.now, timeoutId := w.nextTimerId } ∧
    (rotationBody w).pendingStops =
      w.pendingStops ++ [{ profilerId := s.profilerId, startSnapshot := s.start }] ∧
    (rotationBody w).callbackLog = w.callbackLog := by
  have hbody : rotationBody w = startRun (ContinuousProfiler.stop w) := rfl
  have hstop := stop_session w s hs
  have hfresh := start_fresh (ContinuousProfiler.stop w)
    (by rw [hstop]; simpa using ha) (by rw [hstop])
  refine ⟨rfl, ?_, hbody, by rw [hstop], by rw [hstop], ?_, ?_, ?_⟩
  · rw [deliverBufferFullRun, hq]
    simp [hl]
  · rw [hbody, startRun, hfresh, hstop]
  · rw [hbody, startRun, hfresh, hstop]
  · rw [hbody, startRun, hfresh, hstop]

/-- Witness for C5 right after the first `start()` with one queued
buffer-full event. -/
theorem rotation_stop_then_start_witness :
    timerFireRun 0 (emitBufferFullRun 0 (startRun (initWorld true 0 0 none none))) =
      rotationBody { emitBufferFullRun 0 (startRun (initWorld true 0 0 none none)) with
        pendingTimers :=
          (emitBufferFullRun 0 (startRun (initWorld true 0 0 none none))).pendingTimers.erase 0 } ∧
    deliverBufferFullRun (emitBufferFullRun 0 (startRun (initWorld true 0 0 none none))) =
      rotationBody { emitBufferFullRun 0 (startRun (initWorld true 0 0 none none)) with
        queuedBufferFull := [] } ∧
    rotationBody (emitBufferFullRun 0 (startRun (initWorld true 0 0 none none))) =
      startRun (ContinuousProfiler.stop
        (emitBufferFullRun 0 (startRun (initWorld true 0 0 none none)))) ∧
    (ContinuousProfiler.stop
        (emitBufferFullRun 0 (startRun (initWorld true 0 0 none none)))).pendingStops =
      (emitBufferFullRun 0 (startRun (initWorld true 0 0 none none))).pendingStops ++
        [{ profilerId := 0, startSnapshot := 0 }] ∧
    (ContinuousProfiler.stop
        (emitBufferFullRun 0 (startRun (initWorld true 0 0 none none)))).session = none ∧
    (rotationBody (emitBufferFullRun 0 (startRun (initWorld true 0 0 none none)))).session =
      some { profilerId := 1, start := 0, timeoutId := 1 } ∧
    (rotationBody (emitBufferFullRun 0 (startRun (initWorld true 0 0 none none)))).pendingStops =
      (emitBufferFullRun 0 (startRun (initWorld true 0 0 none none))).pendingStops ++
        [{ profilerId := 0, startSnapshot := 0 }] ∧
    (rotationBody (emitBufferFullRun 0 (startRun (initWorld true 0 0 none none)))).callbackLog =
      (emitBufferFullRun 0 (startRun (initWorld true 0 0 none none))).callbackLog :=
  rotation_stop_then_start
    (emitBufferFullRun 0 (startRun (initWorld true 0 0 none none)))
    0 0 [] { profilerId := 0, start := 0, timeoutId := 0 } rfl rfl rfl (by decide)

/-- C4 counterexample: the claim is false on the code. Concrete run:
`start()` creates engine 0; engine 0 queues a buffer-full event; the
timer fires first and rotates to engine 1 (engine 0 is superseded, its
stop pending). Delivering the superseded engine 0's queued buffer-full
notification is NOT a no-op: the listener (which closes over the
controller, not the session, and is never removed) runs `stop();
start()` against the active session, so the active engine becomes 2 and
engine 1's stop is initiated — an additional double rotation. The whole
run is reachable by legal steps. -/
theorem stale_bufferfull_counterexample :
    ((timerFireRun 0 (emitBufferFullRun 0
        (startRun (initWorld true 0 0 none none)))).session.map
      ContinuousProfilerSession.profilerId = some 1) ∧
    (timerFireRun 0 (emitBufferFullRun 0
        (startRun (initWorld true 0 0 none none)))).queuedBufferFull = [0] ∧
    ((timerFireRun 0 (emitBufferFullRun 0
        (startRun (initWorld true 0 0 none none)))).pendingStops.map
      PendingStop.profilerId = [0]) ∧
    ((deliverBufferFullRun (timerFireRun 0 (emitBufferFullRun 0
        (startRun (initWorld true 0 0 none none))))).session.map
      ContinuousProfilerSession.profilerId = some 2) ∧
    ((deliverBufferFullRun (timerFireRun 0 (emitBufferFullRun 0
        (startRun (initWorld true 0 0 none none))))).pendingStops.map
      PendingStop.profilerId = [0, 1]) ∧
    Reachable (initWorld true 0 0 none none)
      (deliverBufferFullRun (timerFireRun 0 (emitBufferFullRun 0
        (startRun (initWorld true 0 0 none none))))) := by
  refine ⟨by decide, by decide, by decide, by decide, by decide, ?_⟩
  exact Relation.ReflTransGen.tail
    (Relation.ReflTransGen.tail
      (Relation.ReflTransGen.tail
        (Relation.ReflTransGen.tail Relation.ReflTransGen.refl
          (Step.userStart (initWorld true 0 0 none none)))
        (Step.emitBufferFull (startRun (initWorld true 0 0 none none)) 0 (by decide)))
      (Step.timerFire (emitBufferFullRun 0
        (startRun (initWorld true 0 0 none none))) 0 (by decide)))
    (Step.deliverBufferFull (timerFireRun 0 (emitBufferFullRun 0
      (startRun (initWorld true 0 0 none none)))) (by decide))

/-- C4 amended: a buffer-full notification delivered from a superseded
engine instance is not a no-op. Its listener closes over the controller
(not the superseded session) and is never removed, so it executes the
stop-then-start rotation against whatever session is currently active:
the active session's stop is initiated and a fresh session is started.
Only the superseded session's timer is guaranteed inert, because
`stop()` cancelled it with `clearTimeout`. -/
theorem stale_bufferfull_rotates_current (w : World) (pid : Nat)
    (rest : List Nat) (s : ContinuousProfilerSession)
    (hq : w.queuedBufferFull = pid :: rest) (hl : pid ∈ w.listeners)
    (hs : w.session = some s) (ha : w.profilerAvailable = true) :
    (deliverBufferFullRun w).session = some
      { profilerId := w.nextProfilerId, start := w.now, timeoutId := w.nextTimerId } ∧
    (deliverBufferFullRun w).pendingStops =
      w.pendingStops ++ [{ profilerId := s.profilerId, startSnapshot := s.start }] := by
  have hq' : deliverBufferFullRun w =
      rotationBody { w with queuedBufferFull := rest } := by
    simp only [deliverBufferFullRun, hq]
    rw [if_pos hl]
  have hstop := stop_session { w with queuedBufferFull := rest } s hs
  have hfresh := start_fresh
    (ContinuousProfiler.stop { w with queuedBufferFull := rest })
    (by rw [hstop]; simpa using ha) (by rw [hstop])
  rw [hq', rotationBody, startRun, hfresh, hstop]
  exact ⟨rfl, rfl⟩

/-- Witness for the amended C4 at the concrete double-rotation run. -/
theorem stale_bufferfull_rotates_current_witness :
    (deliverBufferFullRun (timerFireRun 0 (emitBufferFullRun 0
        (startRun (initWorld true 0 0 none none))))).session = some
      { profilerId := 2, start := 0, timeoutId := 2 } ∧
    (deliverBufferFullRun (timerFireRun 0 (emitBufferFullRun 0
        (startRun (initWorld true 0 0 none none))))).pendingStops =
      (timerFireRun 0 (emitBufferFullRun 0
        (startRun (initWorld true 0 0 none none)))).pendingStops ++
        [{ profilerId := 1, startSnapshot := 0 }] :=
  stale_bufferfull_rotates_current
    (timerFireRun 0 (emitBufferFullRun 0 (startRun (initWorld true 0 0 none none))))
    0 [] { profilerId := 1, start := 0, timeoutId := 1 }
    (by decide) (by decide) (by decide) (by decide)
